import Mathlib

/-!
Shallow embedding of the rustify Option/Result combinator library.

Data model (src/src/lib/option.ts and the Result module): a value of either
family is a tagged record — the `type` discriminant plus the payload field —
together with the combinator record attached by `createBaseOption` /
`createBaseResult`.  The tagged part is modelled by `OptionData` /
`ResultData`; the presence of the attached combinator record is modelled by
the `hasOps` flag of `OptionObj` / `ResultObj`.  A JavaScript call either
returns a value or throws, which is modelled by `Except Failure`: every
`return e` of the source becomes `Except.ok e` and every `throw` becomes
`Except.error`.  Caller-supplied callbacks are modelled as pure (non-throwing)
functions, matching their TypeScript signatures.
-/

/-- Payload argument of the `Maybe` constructor, `value: T | undefined | null`:
either one of the two JavaScript null-like sentinels or a proper value. -/
inductive Nullable (T : Type) where
  | undef : Nullable T
  | null : Nullable T
  | val (v : T) : Nullable T

/-- Value thrown by the library: either an `Error` object holding a message
(`throw new Error(msg)`, as in the unwrap functions) or a bare string
(`throw msg`, as in the expect functions). -/
inductive Failure where
  | errorObj (message : String) : Failure
  | thrownString (message : String) : Failure

/-- Tag/payload fields of an Option object: `{ type: 'some', value }` or
`{ type: 'none' }` (option.ts lines 193-213). -/
inductive OptionData (T : Type) where
  | some (value : T) : OptionData T
  | none : OptionData T

/-- An Option object of the library: its tag/payload fields plus whether the
combinator record produced by `createBaseOption` is attached (it is for every
object built by the constructors; a raw record arriving from a boundary may
lack it, which is what `optionFactory` repairs). -/
structure OptionObj (T : Type) where
  data : OptionData T
  hasOps : Bool

/-- Tag/payload fields of a Result object: `{ type: 'ok', value }` or
`{ type: 'err', error }`. -/
inductive ResultData (T E : Type) where
  | ok (value : T) : ResultData T E
  | err (error : E) : ResultData T E

/-- A Result object of the library: tag/payload fields plus whether the
combinator record produced by `createBaseResult` is attached. -/
structure ResultObj (T E : Type) where
  data : ResultData T E
  hasOps : Bool

/-- Constructor `Some(value)`: `{ type: 'some', value, ...createBaseOption() }`
(option.ts line 237; the null-payload console warning has no effect on the
returned value and is not modelled). -/
def Some {T : Type} (value : T) : OptionObj T :=
  ⟨OptionData.some value, true⟩

/-- Constructor `None()`: `{ type: 'none', ...createBaseOption() }`
(option.ts line 247). -/
def None {T : Type} : OptionObj T :=
  ⟨OptionData.none, true⟩

/-- Constructor `Maybe(value)` (option.ts line 256): `None()` when the value
is `undefined` or `null`, otherwise `Some(value)`. -/
def Maybe {T : Type} (value : Nullable T) : OptionObj T :=
  match value with
  | Nullable.undef => None
  | Nullable.null => None
  | Nullable.val v => Some v

/-- Constructor `Ok(value)`: `{ type: 'ok', value, ...createBaseResult() }`;
the valueless overload `Ok()` is this constructor at `T := Unit`. -/
def Ok {T E : Type} (value : T) : ResultObj T E :=
  ⟨ResultData.ok value, true⟩

/-- Constructor `Err(error)`: `{ type: 'err', error, ...createBaseResult() }`;
the valueless overload `Err()` is this constructor at `E := Unit`. -/
def Err {T E : Type} (error : E) : ResultObj T E :=
  ⟨ResultData.err error, true⟩

/-- Rehydration entry point `optionFactory(option)` (option.ts line 614):
`{ ...option, ...createBaseOption() }` keeps the tag/payload fields of the
argument and attaches a fresh combinator record. -/
def optionFactory {T : Type} (o : OptionObj T) : OptionObj T :=
  ⟨o.data, true⟩

/-- Rehydration entry point `resultFactory(result)`:
`{ ...result, ...createBaseResult() }` keeps the tag/payload fields and
attaches a fresh combinator record. -/
def resultFactory {T E : Type} (r : ResultObj T E) : ResultObj T E :=
  ⟨r.data, true⟩

namespace OptionObj

variable {T U E R : Type}

/-- Method some(): `return this.type == 'some'`. -/
def some (o : OptionObj T) : Except Failure Bool :=
  match o.data with
  | OptionData.some _ => Except.ok true
  | OptionData.none => Except.ok false

/-- Method none(): `return this.type == 'none'`. -/
def none (o : OptionObj T) : Except Failure Bool :=
  match o.data with
  | OptionData.some _ => Except.ok false
  | OptionData.none => Except.ok true

/-- Method unwrap(): the payload on `Some`, otherwise
`throw new Error('Called `unwrap()` on a `None` `Option` value')`. -/
def unwrap (o : OptionObj T) : Except Failure T :=
  match o.data with
  | OptionData.some v => Except.ok v
  | OptionData.none =>
      Except.error (Failure.errorObj "Called `unwrap()` on a `None` `Option` value")

/-- Method unwrapOr(def): the payload on `Some`, otherwise the default. -/
def unwrapOr (o : OptionObj T) (default : T) : Except Failure T :=
  match o.data with
  | OptionData.some v => Except.ok v
  | OptionData.none => Except.ok default

/-- Method unwrapOrGet(supplier): the payload on `Some`, otherwise the
supplied value; the supplier is invoked only in the `None` branch. -/
def unwrapOrGet (o : OptionObj T) (supplier : Unit → T) : Except Failure T :=
  match o.data with
  | OptionData.some v => Except.ok v
  | OptionData.none => Except.ok (supplier ())

/-- Method expect(msg): the payload on `Some`, otherwise `throw msg` — the
caller's string is thrown as-is, not wrapped in an `Error`. -/
def expect (o : OptionObj T) (msg : String) : Except Failure T :=
  match o.data with
  | OptionData.some v => Except.ok v
  | OptionData.none => Except.error (Failure.thrownString msg)

/-- Method match(matcher): exactly one of the two arms executes (named
`matchOn` here because `match` is a reserved word in Lean). -/
def matchOn (o : OptionObj T) (someArm : T → R) (noneArm : Unit → R) :
    Except Failure R :=
  match o.data with
  | OptionData.some v => Except.ok (someArm v)
  | OptionData.none => Except.ok (noneArm ())

/-- Method map(mapper): `Some(mapper(value))` on `Some`, else `None()`. -/
def map (o : OptionObj T) (mapper : T → U) : Except Failure (OptionObj U) :=
  match o.data with
  | OptionData.some v => Except.ok (Some (mapper v))
  | OptionData.none => Except.ok None

/-- Method mapOr(mapper, value): `Some(mapper(v))` on `Some`, else
`Some(value)` — the fallback is wrapped in `Some` (option.ts line 380). -/
def mapOr (o : OptionObj T) (mapper : T → U) (value : U) :
    Except Failure (OptionObj U) :=
  match o.data with
  | OptionData.some v => Except.ok (Some (mapper v))
  | OptionData.none => Except.ok (Some value)

/-- Method flatMap(mapper): the mapper's result on `Some`, else `None()`. -/
def flatMap (o : OptionObj T) (mapper : T → OptionObj U) :
    Except Failure (OptionObj U) :=
  match o.data with
  | OptionData.some v => Except.ok (mapper v)
  | OptionData.none => Except.ok None

/-- Method mapOrElse(mapper, supplier): `Some(mapper(v))` on `Some`, else
`Some(supplier())`; the supplier is invoked only in the `None` branch. -/
def mapOrElse (o : OptionObj T) (mapper : T → U) (supplier : Unit → U) :
    Except Failure (OptionObj U) :=
  match o.data with
  | OptionData.some v => Except.ok (Some (mapper v))
  | OptionData.none => Except.ok (Some (supplier ()))

/-- Method inspect(callback): calls the callback on the payload when `Some`,
then returns `this` unchanged in both cases. -/
def inspect (o : OptionObj T) (callback : T → Unit) :
    Except Failure (OptionObj T) :=
  match o.data with
  | OptionData.some v =>
      let _ := callback v
      Except.ok o
  | OptionData.none => Except.ok o

/-- Method ok(): `Ok(value)` on `Some`, else `Err(undefined as void)`
(option.ts line 441) — the fabricated sentinel error is the unit value. -/
def ok (o : OptionObj T) : Except Failure (ResultObj T Unit) :=
  match o.data with
  | OptionData.some v => Except.ok (Ok v)
  | OptionData.none => Except.ok (Err ())

/-- Method okOr(error): `Ok(value)` on `Some`, else `Err(error)`. -/
def okOr (o : OptionObj T) (error : E) : Except Failure (ResultObj T E) :=
  match o.data with
  | OptionData.some v => Except.ok (Ok v)
  | OptionData.none => Except.ok (Err error)

/-- Method okOrElse(error): `Ok(value)` on `Some`, else `Err(error())`;
the supplier is invoked only in the `None` branch. -/
def okOrElse (o : OptionObj T) (error : Unit → E) :
    Except Failure (ResultObj T E) :=
  match o.data with
  | OptionData.some v => Except.ok (Ok v)
  | OptionData.none => Except.ok (Err (error ()))

/-- Method and(other): `other` on `Some`, else `None()`. -/
def and (o : OptionObj T) (other : OptionObj U) :
    Except Failure (OptionObj U) :=
  match o.data with
  | OptionData.some _ => Except.ok other
  | OptionData.none => Except.ok None

/-- Method or(other): `this` on `Some`, else `other`. -/
def or (o : OptionObj T) (other : OptionObj T) :
    Except Failure (OptionObj T) :=
  match o.data with
  | OptionData.some _ => Except.ok o
  | OptionData.none => Except.ok other

/-- Method orElse(other): `this` on `Some`, else `other()`; the supplier is
invoked only in the `None` branch. -/
def orElse (o : OptionObj T) (other : Unit → OptionObj T) :
    Except Failure (OptionObj T) :=
  match o.data with
  | OptionData.some _ => Except.ok o
  | OptionData.none => Except.ok (other ())

/-- Method xor(other): `this` when exactly this operand is `Some`, `other`
when exactly the other operand is `Some`, otherwise `None()`. -/
def xor (o : OptionObj T) (other : OptionObj T) :
    Except Failure (OptionObj T) :=
  match o.data, other.data with
  | OptionData.some _, OptionData.none => Except.ok o
  | OptionData.none, OptionData.some _ => Except.ok other
  | _, _ => Except.ok None

/-- Method filter(predicate): `this` when `Some` and the predicate passes on
the payload, otherwise `None()`; the predicate is not invoked on `None`. -/
def filter (o : OptionObj T) (predicate : T → Bool) :
    Except Failure (OptionObj T) :=
  match o.data with
  | OptionData.some v => if predicate v then Except.ok o else Except.ok None
  | OptionData.none => Except.ok None

/-- Method zip(other): `Some([x, y])` when both are `Some`, else `None()`. -/
def zip (o : OptionObj T) (other : OptionObj U) :
    Except Failure (OptionObj (T × U)) :=
  match o.data, other.data with
  | OptionData.some v, OptionData.some w => Except.ok (Some (v, w))
  | _, _ => Except.ok None

/-- Method unzip() on an option of a pair: `[Some(a), Some(b)]` on `Some`,
else `[None(), None()]`. -/
def unzip (o : OptionObj (T × U)) :
    Except Failure (OptionObj T × OptionObj U) :=
  match o.data with
  | OptionData.some vw => Except.ok (Some vw.1, Some vw.2)
  | OptionData.none => Except.ok (None, None)

end OptionObj

namespace ResultObj

variable {T E : Type}

/-- Method ok(): `return this.type == 'ok'`. -/
def ok (r : ResultObj T E) : Except Failure Bool :=
  match r.data with
  | ResultData.ok _ => Except.ok true
  | ResultData.err _ => Except.ok false

/-- Method err(): `return this.type == 'err'`. -/
def err (r : ResultObj T E) : Except Failure Bool :=
  match r.data with
  | ResultData.ok _ => Except.ok false
  | ResultData.err _ => Except.ok true

/-- Method get(): `Some(value)` on `Ok`, else `None()`. -/
def get (r : ResultObj T E) : Except Failure (OptionObj T) :=
  match r.data with
  | ResultData.ok v => Except.ok (Some v)
  | ResultData.err _ => Except.ok None

/-- Method fail(): `Some(error)` on `Err`, else `None()`. -/
def fail (r : ResultObj T E) : Except Failure (OptionObj E) :=
  match r.data with
  | ResultData.ok _ => Except.ok None
  | ResultData.err e => Except.ok (Some e)

/-- Method unwrap(): the payload on `Ok`, otherwise
`throw new Error('Called `unwrap()` on an `Err` `Result` value with: ' + this.error)`;
the string coercion of the error payload performed by JavaScript
concatenation is modelled by `ToString`. -/
def unwrap [ToString E] (r : ResultObj T E) : Except Failure T :=
  match r.data with
  | ResultData.ok v => Except.ok v
  | ResultData.err e =>
      Except.error (Failure.errorObj
        ("Called `unwrap()` on an `Err` `Result` value with: " ++ toString e))

/-- Method unwrapOr(def): the payload on `Ok`, otherwise the default. -/
def unwrapOr (r : ResultObj T E) (default : T) : Except Failure T :=
  match r.data with
  | ResultData.ok v => Except.ok v
  | ResultData.err _ => Except.ok default

/-- Method unwrapOrGet(supplier): the payload on `Ok`, otherwise the supplied
value; the supplier is invoked only in the `Err` branch. -/
def unwrapOrGet (r : ResultObj T E) (supplier : Unit → T) : Except Failure T :=
  match r.data with
  | ResultData.ok v => Except.ok v
  | ResultData.err _ => Except.ok (supplier ())

/-- Method expect(msg): the payload on `Ok`, otherwise `throw msg` — the
caller's string is thrown as-is, ignoring the error payload. -/
def expect (r : ResultObj T E) (msg : String) : Except Failure T :=
  match r.data with
  | ResultData.ok v => Except.ok v
  | ResultData.err _ => Except.error (Failure.thrownString msg)

end ResultObj

/-- Claim C1: rehydration is idempotent and is the identity on tag/payload
fields — `optionFactory o` keeps `o`'s tag/payload data, rehydrating twice
gives a value structurally equal to rehydrating once (hence equal behaviour
under every combinator, i.e. under every function on option objects), and the
same holds for `resultFactory` on every Result value. -/
theorem rehydration_idempotent_identity {T E : Type}
    (o : OptionObj T) (r : ResultObj T E) :
    (optionFactory o).data = o.data ∧
    optionFactory (optionFactory o) = optionFactory o ∧
    (∀ (A : Type) (f : OptionObj T → A),
      f (optionFactory (optionFactory o)) = f (optionFactory o)) ∧
    (resultFactory r).data = r.data ∧
    resultFactory (resultFactory r) = resultFactory r ∧
    (∀ (A : Type) (g : ResultObj T E → A),
      g (resultFactory (resultFactory r)) = g (resultFactory r)) :=
  ⟨rfl, rfl, fun _ _ => rfl, rfl, rfl, fun _ _ => rfl⟩

/-- Claim C2: for every mapper and fallback, `mapOr` sends `Some x` to
`Some (fn x)` and `None` to `Some v` (the fallback wrapped in `Some`, not
returned raw); `mapOrElse` sends `None` to `Some (supplier ())`, and on
`Some` its result does not depend on the supplier (the supplier is invoked
only on `None`). -/
theorem mapOr_mapOrElse_wrap_fallback {T U : Type}
    (x : T) (fn : T → U) (v : U) (s : Unit → U) :
    OptionObj.mapOr (Some x) fn v = Except.ok (Some (fn x)) ∧
    OptionObj.mapOr (None : OptionObj T) fn v = Except.ok (Some v) ∧
    OptionObj.mapOrElse (Some x) fn s = Except.ok (Some (fn x)) ∧
    OptionObj.mapOrElse (None : OptionObj T) fn s = Except.ok (Some (s ())) ∧
    (∀ t : Unit → U,
      OptionObj.mapOrElse (Some x) fn t = OptionObj.mapOrElse (Some x) fn s) :=
  ⟨rfl, rfl, rfl, rfl, fun _ => rfl⟩

/-- Claim C3: `unwrap()` on `Err e` throws an `Error` whose message contains
the textual form of `e` (here: the message is a fixed prefix followed by
`toString e`), while `unwrap()` on `Ok v` returns `v`. -/
theorem unwrap_err_message_carries_payload {T E : Type} [ToString E]
    (e : E) (v : T) :
    (∃ p : String, ResultObj.unwrap (Err e : ResultObj T E) =
      Except.error (Failure.errorObj (p ++ toString e))) ∧
    ResultObj.unwrap (Ok v : ResultObj T E) = Except.ok v :=
  ⟨⟨"Called `unwrap()` on an `Err` `Result` value with: ", rfl⟩, rfl⟩

/-- Claim C3 witness: the property of `unwrap_err_message_carries_payload`
instantiated at the error payload 5 and the success payload 3. -/
theorem unwrap_err_message_carries_payload_witness :
    (∃ p : String, ResultObj.unwrap (Err 5 : ResultObj Nat Nat) =
      Except.error (Failure.errorObj (p ++ toString 5))) ∧
    ResultObj.unwrap (Ok 3 : ResultObj Nat Nat) = Except.ok 3 :=
  unwrap_err_message_carries_payload 5 3

/-- Claim C4: round trip through Result — `Some(v).ok().get().unwrap()`
returns `v`, and `None().ok().fail().unwrap()` returns the unit sentinel
error that `ok()` fabricates when projecting `None` to `Err`. -/
theorem option_result_roundtrip {T : Type} (v : T) :
    Except.bind (Except.bind (OptionObj.ok (Some v)) ResultObj.get)
      OptionObj.unwrap = Except.ok v ∧
    Except.bind (Except.bind (OptionObj.ok (None : OptionObj T))
      ResultObj.fail) OptionObj.unwrap = Except.ok () :=
  ⟨rfl, rfl⟩

/-- Claim C5: `expect m` on `None` (Option) or on `Err` (Result) throws
exactly the caller-supplied string `m`, with no embedded context, while on
`Some v` / `Ok w` it returns the payload. -/
theorem expect_message_is_exactly_caller_string {T E : Type}
    (m : String) (v w : T) (e : E) :
    OptionObj.expect (None : OptionObj T) m
      = Except.error (Failure.thrownString m) ∧
    OptionObj.expect (Some v) m = Except.ok v ∧
    ResultObj.expect (Err e : ResultObj T E) m
      = Except.error (Failure.thrownString m) ∧
    ResultObj.expect (Ok w : ResultObj T E) m = Except.ok w :=
  ⟨rfl, rfl, rfl, rfl⟩

/-- Claim C6: the `Maybe` constructor yields `None` exactly when its argument
is one of the absent markers (`undefined` or `null`), and on any proper value
it yields `Some` carrying that value. -/
theorem maybe_absent_iff_none {T : Type} (v : Nullable T) :
    ((Maybe v).data = OptionData.none ↔
      v = Nullable.undef ∨ v = Nullable.null) ∧
    (∀ t : T, Maybe (Nullable.val t) = Some t) := by
  constructor
  · cases v <;> simp [Maybe, Some, None]
  · intro t
    rfl

/-- Claim C7: the `xor` truth table — `Some(a).xor(None()) = Some(a)`,
`None().xor(Some(b)) = Some(b)`, `Some(a).xor(Some(b)) = None()`, and
`None().xor(None()) = None()`. -/
theorem xor_truth_table {T : Type} (a b : T) :
    OptionObj.xor (Some a) (None : OptionObj T) = Except.ok (Some a) ∧
    OptionObj.xor (None : OptionObj T) (Some b) = Except.ok (Some b) ∧
    OptionObj.xor (Some a) (Some b) = Except.ok (None : OptionObj T) ∧
    OptionObj.xor (None : OptionObj T) (None : OptionObj T)
      = Except.ok (None : OptionObj T) :=
  ⟨rfl, rfl, rfl, rfl⟩

/-- Claim C8: `okOr` and `okOrElse` agree — for every option object and every
error value, `opt.okOrElse(() => e)` equals `opt.okOr(e)`. -/
theorem okOr_okOrElse_agree {T E : Type} (o : OptionObj T) (e : E) :
    OptionObj.okOrElse o (fun _ => e) = OptionObj.okOr o e := by
  obtain ⟨d, h⟩ := o
  cases d <;> rfl

/-- Claim C9: every Option and Result operation other than the two throwing
ones (`unwrap` and `expect`) is total and never fails — for every receiver
and all (non-throwing) caller-supplied callbacks, each of `some`, `none`,
`unwrapOr`, `unwrapOrGet`, `match`, `map`, `mapOr`, `flatMap`, `mapOrElse`,
`inspect`, `ok`, `okOr`, `okOrElse`, `and`, `or`, `orElse`, `xor`, `filter`,
`zip`, `unzip` on Option and `ok`, `err`, `get`, `fail`, `unwrapOr`,
`unwrapOrGet` on Result returns normally (an `Except.ok` value). -/
theorem non_unwrap_operations_never_fail (T U E R : Type) :
    (∀ o : OptionObj T, ∃ b, OptionObj.some o = Except.ok b) ∧
    (∀ o : OptionObj T, ∃ b, OptionObj.none o = Except.ok b) ∧
    (∀ (o : OptionObj T) (d : T), ∃ w, OptionObj.unwrapOr o d = Except.ok w) ∧
    (∀ (o : OptionObj T) (s : Unit → T),
      ∃ w, OptionObj.unwrapOrGet o s = Except.ok w) ∧
    (∀ (o : OptionObj T) (sa : T → R) (na : Unit → R),
      ∃ w, OptionObj.matchOn o sa na = Except.ok w) ∧
    (∀ (o : OptionObj T) (f : T → U), ∃ w, OptionObj.map o f = Except.ok w) ∧
    (∀ (o : OptionObj T) (f : T → U) (d : U),
      ∃ w, OptionObj.mapOr o f d = Except.ok w) ∧
    (∀ (o : OptionObj T) (f : T → OptionObj U),
      ∃ w, OptionObj.flatMap o f = Except.ok w) ∧
    (∀ (o : OptionObj T) (f : T → U) (s : Unit → U),
      ∃ w, OptionObj.mapOrElse o f s = Except.ok w) ∧
    (∀ (o : OptionObj T) (cb : T → Unit),
      ∃ w, OptionObj.inspect o cb = Except.ok w) ∧
    (∀ o : OptionObj T, ∃ w, OptionObj.ok o = Except.ok w) ∧
    (∀ (o : OptionObj T) (e : E), ∃ w, OptionObj.okOr o e = Except.ok w) ∧
    (∀ (o : OptionObj T) (es : Unit → E),
      ∃ w, OptionObj.okOrElse o es = Except.ok w) ∧
    (∀ (o : OptionObj T) (p : OptionObj U),
      ∃ w, OptionObj.and o p = Except.ok w) ∧
    (∀ o p : OptionObj T, ∃ w, OptionObj.or o p = Except.ok w) ∧
    (∀ (o : OptionObj T) (s : Unit → OptionObj T),
      ∃ w, OptionObj.orElse o s = Except.ok w) ∧
    (∀ o p : OptionObj T, ∃ w, OptionObj.xor o p = Except.ok w) ∧
    (∀ (o : OptionObj T) (q : T → Bool),
      ∃ w, OptionObj.filter o q = Except.ok w) ∧
    (∀ (o : OptionObj T) (p : OptionObj U),
      ∃ w, OptionObj.zip o p = Except.ok w) ∧
    (∀ o : OptionObj (T × U), ∃ w, OptionObj.unzip o = Except.ok w) ∧
    (∀ o : ResultObj T E, ∃ b, ResultObj.ok o = Except.ok b) ∧
    (∀ o : ResultObj T E, ∃ b, ResultObj.err o = Except.ok b) ∧
    (∀ o : ResultObj T E, ∃ w, ResultObj.get o = Except.ok w) ∧
    (∀ o : ResultObj T E, ∃ w, ResultObj.fail o = Except.ok w) ∧
    (∀ (o : ResultObj T E) (d : T), ∃ w, ResultObj.unwrapOr o d = Except.ok w) ∧
    (∀ (o : ResultObj T E) (s : Unit → T),
      ∃ w, ResultObj.unwrapOrGet o s = Except.ok w) := by
  refine ⟨fun o => ?_, fun o => ?_, fun o d => ?_, fun o s => ?_,
    fun o sa na => ?_, fun o f => ?_, fun o f d => ?_, fun o f => ?_,
    fun o f s => ?_, fun o cb => ?_, fun o => ?_, fun o e => ?_,
    fun o es => ?_, fun o p => ?_, fun o p => ?_, fun o s => ?_,
    fun o p => ?_, fun o q => ?_, fun o p => ?_, fun o => ?_,
    fun o => ?_, fun o => ?_, fun o => ?_, fun o => ?_, fun o d => ?_,
    fun o s => ?_⟩
  all_goals obtain ⟨d1, h1⟩ := o
  all_goals cases d1
  all_goals try exact ⟨_, rfl⟩
  all_goals try (obtain ⟨d2, h2⟩ := p; cases d2 <;> exact ⟨_, rfl⟩)
  rename_i v
  rcases hq : q v with _ | _ <;> simp [OptionObj.filter, hq]

/-- Claim C10: the tag predicates are exhaustive and mutually exclusive — on
every Option value exactly one of `some()` / `none()` returns true (each is
the negation of the other), and on every Result value exactly one of `ok()` /
`err()` returns true. -/
theorem tag_predicates_complementary (T E : Type) :
    (∀ o : OptionObj T,
      (OptionObj.some o = Except.ok true ∧
        OptionObj.none o = Except.ok false) ∨
      (OptionObj.some o = Except.ok false ∧
        OptionObj.none o = Except.ok true)) ∧
    (∀ r : ResultObj T E,
      (ResultObj.ok r = Except.ok true ∧ ResultObj.err r = Except.ok false) ∨
      (ResultObj.ok r = Except.ok false ∧ ResultObj.err r = Except.ok true)) := by
  constructor
  · rintro ⟨d, h⟩
    cases d
    · exact Or.inl ⟨rfl, rfl⟩
    · exact Or.inr ⟨rfl, rfl⟩
  · rintro ⟨d, h⟩
    cases d
    · exact Or.inl ⟨rfl, rfl⟩
    · exact Or.inr ⟨rfl, rfl⟩
